import Mathlib

/-!
# aws-iam-authenticator: the `server` command

A shallow embedding of `serverCmd.Run` from
`cmd/aws-iam-authenticator/server.go`.

The body of `Run` is straight-line code over external collaborators
(client-go, the controller package, the server package, logrus).  Every call
to a collaborator is recorded as an `Event` in a trace, in program order, and
its result is read from a `World`, which fixes what each collaborator answers.
`logrus.Fatal` ends the process with status 1; a call that never returns
(`ctrl.Run`, `<-stopCh`) leaves the orchestrator blocked.
-/

namespace AwsIamAuthenticator

/-! ## Data model -/

/-- Message of a non-nil Go `error`. -/
abbrev GoError := String

/-- Go `time.Duration`: a signed 64-bit count of nanoseconds. -/
abbrev Duration := Int

/-- Two's-complement wrap of an integer into the `int64` range. -/
def wrapInt64 (x : Int) : Int := (x + 2 ^ 63) % 2 ^ 64 - 2 ^ 63

/-- Smallest `int64`. -/
def minInt64 : Int := -(2 ^ 63)

/-- Largest `int64`. -/
def maxInt64 : Int := 2 ^ 63 - 1

/-- Multiplication of durations as Go computes it on `int64`. -/
def Duration.mul (a b : Duration) : Duration := wrapInt64 (a * b)

/-- Go `time.Nanosecond`. -/
def Nanosecond : Duration := 1

/-- Go `time.Microsecond`. -/
def Microsecond : Duration := 1000 * Nanosecond

/-- Go `time.Millisecond`. -/
def Millisecond : Duration := 1000 * Microsecond

/-- Go `time.Second`. -/
def Second : Duration := 1000 * Millisecond

/-- Go `time.Minute`. -/
def Minute : Duration := 60 * Second

/-- Go `time.Hour`. -/
def Hour : Duration := 60 * Minute

/-- The vocabulary of feature names the command consults. -/
inductive Feature where
  | IAMIdentityMappingCRD
deriving DecidableEq, Repr

/-- The feature-gate set of a configuration: one boolean per feature name. -/
structure FeatureGates where
  IAMIdentityMappingCRD : Bool
deriving DecidableEq, Repr

/-- The query `cfg.FeatureGates.Enabled(f)`. -/
def FeatureGates.Enabled (g : FeatureGates) : Feature → Bool
  | .IAMIdentityMappingCRD => g.IAMIdentityMappingCRD

/-- The fields of `config.Config` that `Run` reads or passes on. -/
structure Config where
  FeatureGates : FeatureGates
  Master : String
  Kubeconfig : String
  Address : String
deriving DecidableEq, Repr

/-- A `*rest.Config`, as far as the command can tell two of them apart. -/
structure RestConfig where
  Host : String
deriving DecidableEq, Repr

/-- A `runtime.Object` handed to a fake clientset. -/
structure RuntimeObject where
  name : String
deriving DecidableEq, Repr

/-- A `kubernetes.Interface`: a client bound to a REST config, or the
in-memory clientset of `k8s.io/client-go/kubernetes/fake`. -/
inductive KubeClient where
  | real (c : RestConfig)
  | fake (objects : List RuntimeObject)
deriving DecidableEq, Repr

/-- A `clientset.Interface` for IAMIdentityMappings: a client bound to a REST
config, or the in-memory clientset of the generated `fake` package. -/
inductive IamClient where
  | real (c : RestConfig)
  | fake (objects : List RuntimeObject)
deriving DecidableEq, Repr

/-- The stop channel returned by `signals.SetupSignalHandler`. -/
structure Chan where
  id : Nat
deriving DecidableEq, Repr

/-- An `informers.SharedInformerFactory`: the client it watches through and
its default resync period. -/
structure SharedInformerFactory where
  client : IamClient
  defaultResync : Duration
deriving DecidableEq, Repr

/-- The value of `factory.Iamauthenticator().V1alpha1().IAMIdentityMappings()`:
the informer (and lister) view of one factory. -/
structure IAMIdentityMappingInformer where
  factory : SharedInformerFactory
deriving DecidableEq, Repr

/-- The accessor chain `Iamauthenticator().V1alpha1().IAMIdentityMappings()`. -/
def SharedInformerFactory.IAMIdentityMappings (f : SharedInformerFactory) :
    IAMIdentityMappingInformer := ⟨f⟩

/-- A `*controller.Controller` as built by `controller.New`. -/
structure Controller where
  kubeClient : KubeClient
  iamClient : IamClient
  informer : IAMIdentityMappingInformer
deriving DecidableEq, Repr

/-- A `*server.Server` as built by `server.New`. -/
structure Server where
  cfg : Config
  informer : IAMIdentityMappingInformer
deriving DecidableEq, Repr

/-- What a call that may block does: it returns a value, or never returns. -/
inductive Blocking (α : Type) where
  | returns (a : α)
  | never
deriving DecidableEq, Repr

/-- One step of the process.  All constructors but the last two are steps of
the orchestrator (`serverCmd.Run`), in the order it performs them; a call
event stands for a call that has returned, except `CtrlRun` and `RecvStop`,
which stand for the invocation of a call that may block.  The last two
constructors are steps of the goroutine launched by `GoHttpServerRun`. -/
inductive Event where
  | SetupSignalHandler (stopCh : Chan)
  | GetConfig
  | Infof (format : String)
  | Enabled (f : Feature)
  | BuildConfigFromFlags (masterUrl kubeconfigPath : String)
  | InClusterConfig
  | KubernetesNewForConfig (c : RestConfig)
  | ClientsetNewForConfig (c : RestConfig)
  | K8sFakeNewSimpleClientset (objects : List RuntimeObject)
  | FakeNewSimpleClientset (objects : List RuntimeObject)
  | NewSharedInformerFactory (client : IamClient) (defaultResync : Duration)
  | ControllerNew (kubeClient : KubeClient) (iamClient : IamClient)
      (informer : IAMIdentityMappingInformer)
  | ServerNew (cfg : Config) (informer : IAMIdentityMappingInformer)
  | Start (factory : SharedInformerFactory) (stopCh : Chan)
  | GoHttpServerRun (httpServer : Server) (stopCh : Chan)
  | CtrlRun (ctrl : Controller) (threadiness : Nat) (stopCh : Chan)
  | RecvStop (stopCh : Chan)
  | Fatal (msg : String)
  | HttpServerRun (httpServer : Server) (stopCh : Chan)
  | HttpServerRunReturned (httpServer : Server)
deriving DecidableEq, Repr

/-- The answers of the collaborators of `serverCmd.Run`. -/
structure World where
  /-- the channel `signals.SetupSignalHandler()` returns -/
  SetupSignalHandler : Chan
  /-- whether that channel is ever closed (a termination request arrives) -/
  closed : Chan → Bool
  /-- result of `getConfig()` -/
  getConfig : Except GoError Config
  /-- result of `clientcmd.BuildConfigFromFlags(masterUrl, kubeconfigPath)` -/
  BuildConfigFromFlags : String → String → Except GoError RestConfig
  /-- result of `rest.InClusterConfig()` -/
  InClusterConfig : Except GoError RestConfig
  /-- the error of `kubernetes.NewForConfig(c)`, `none` for nil -/
  KubernetesNewForConfig : RestConfig → Option GoError
  /-- the error of `clientset.NewForConfig(c)`, `none` for nil -/
  ClientsetNewForConfig : RestConfig → Option GoError
  /-- what `ctrl.Run(threadiness, stopCh)` does: its error (`none` for nil),
  or it never returns -/
  CtrlRun : Controller → Nat → Chan → Blocking (Option GoError)
  /-- what `httpServer.Run(stopCh)` does: it returns (with a failure it
  reports itself, or without), or it never returns -/
  HttpServerRun : Server → Chan → Blocking (Option GoError)

/-- How the orchestrator stands at the end of a trace. -/
inductive Outcome (α : Type) where
  | value (a : α)
  | exit (code : Nat)
  | blocked
deriving DecidableEq, Repr

/-- The local variables of `Run` declared with `var`, nil (`none`) until
assigned, and the trace so far. -/
structure Machine where
  trace : List Event := []
  k8sconfig : Option RestConfig := none
  kubeClient : Option KubeClient := none
  iamClient : Option IamClient := none
  iamInformerFactory : Option SharedInformerFactory := none
deriving DecidableEq, Repr

/-- A statement sequence of `Run`: it transforms the machine and either
yields a value, ends the process, or blocks for ever. -/
def Step (α : Type) : Type := Machine → Machine × Outcome α

/-- Sequencing: what follows a statement runs only if the statement yields. -/
def Step.bind {α β : Type} (x : Step α) (f : α → Step β) : Step β := fun m =>
  match x m with
  | (m1, .value a) => f a m1
  | (m1, .exit c) => (m1, .exit c)
  | (m1, .blocked) => (m1, .blocked)

/-- A statement that yields `a` and does nothing. -/
def Step.pure {α : Type} (a : α) : Step α := fun m => (m, .value a)

instance : Monad Step where
  pure := Step.pure
  bind := Step.bind

/-- Record one event. -/
def emit (e : Event) : Step Unit := fun m =>
  ({ m with trace := m.trace ++ [e] }, .value ())

/-- The call `logrus.Fatal` / `logrus.Fatalf`: log, then `os.Exit(1)`. -/
def Fatal {α : Type} (msg : String) : Step α := fun m =>
  ({ m with trace := m.trace ++ [.Fatal msg] }, .exit 1)

/-- A call that may block: it yields its value if it returns. -/
def await {α : Type} (r : Blocking α) : Step α := fun m =>
  match r with
  | .returns a => (m, .value a)
  | .never => (m, .blocked)

/-- Assignment to a local variable of `Run`. -/
def assign (f : Machine → Machine) : Step Unit := fun m => (f m, .value ())

/-! ## The command -/

/-- The function literal `noResyncPeriodFunc` of `Run`. -/
def noResyncPeriodFunc : Duration := 0

/-- The body of `serverCmd.Run`, statement by statement. -/
def serverCmdRun (w : World) : Step Unit := do
  let stopCh := w.SetupSignalHandler
  emit (.SetupSignalHandler stopCh)
  emit .GetConfig
  let cfg ← (match w.getConfig with
    | .error err => Fatal err
    | .ok cfg => pure cfg)
  emit (.Infof "Feature Gates %+v")
  emit (.Enabled .IAMIdentityMappingCRD)
  if cfg.FeatureGates.Enabled .IAMIdentityMappingCRD then
    let r ← (if cfg.Master != "" || cfg.Kubeconfig != "" then do
        emit (.BuildConfigFromFlags cfg.Master cfg.Kubeconfig)
        pure (w.BuildConfigFromFlags cfg.Master cfg.Kubeconfig)
      else do
        emit .InClusterConfig
        pure w.InClusterConfig)
    let k8sconfig ← (match r with
      | .error _ => Fatal "can't create kubernetes config"
      | .ok c => pure c)
    assign fun m => { m with k8sconfig := some k8sconfig }
    emit (.KubernetesNewForConfig k8sconfig)
    let kubeClient ← (match w.KubernetesNewForConfig k8sconfig with
      | some _ => Fatal "can't create kubernetes client"
      | none => pure (KubeClient.real k8sconfig))
    assign fun m => { m with kubeClient := some kubeClient }
    emit (.ClientsetNewForConfig k8sconfig)
    let iamClient ← (match w.ClientsetNewForConfig k8sconfig with
      | some _ => Fatal "can't create iam authenticator client"
      | none => pure (IamClient.real k8sconfig))
    assign fun m => { m with iamClient := some iamClient }
    let iamInformerFactory : SharedInformerFactory :=
      ⟨iamClient, Duration.mul Second 36000⟩
    emit (.NewSharedInformerFactory iamClient (Duration.mul Second 36000))
    assign fun m => { m with iamInformerFactory := some iamInformerFactory }
    let ctrl : Controller :=
      ⟨kubeClient, iamClient, iamInformerFactory.IAMIdentityMappings⟩
    emit (.ControllerNew kubeClient iamClient iamInformerFactory.IAMIdentityMappings)
    let httpServer : Server := ⟨cfg, iamInformerFactory.IAMIdentityMappings⟩
    emit (.ServerNew cfg iamInformerFactory.IAMIdentityMappings)
    emit (.Start iamInformerFactory stopCh)
    emit (.GoHttpServerRun httpServer stopCh)
    emit (.CtrlRun ctrl 2 stopCh)
    let err ← await (w.CtrlRun ctrl 2 stopCh)
    (match err with
      | some _ => Fatal "controller exited"
      | none => pure ())
  else
    let kubeClient := KubeClient.fake []
    emit (.K8sFakeNewSimpleClientset [])
    assign fun m => { m with kubeClient := some kubeClient }
    let iamClient := IamClient.fake []
    emit (.FakeNewSimpleClientset [])
    assign fun m => { m with iamClient := some iamClient }
    let iamInformerFactory : SharedInformerFactory := ⟨iamClient, noResyncPeriodFunc⟩
    emit (.NewSharedInformerFactory iamClient noResyncPeriodFunc)
    assign fun m => { m with iamInformerFactory := some iamInformerFactory }
    emit (.Start iamInformerFactory stopCh)
    let httpServer : Server := ⟨cfg, iamInformerFactory.IAMIdentityMappings⟩
    emit (.ServerNew cfg iamInformerFactory.IAMIdentityMappings)
    emit (.GoHttpServerRun httpServer stopCh)
    emit (.RecvStop stopCh)
    await (if w.closed stopCh then .returns () else .never)

/-- A run of the command from the initial machine. -/
def run (w : World) : Machine × Outcome Unit := serverCmdRun w {}

/-- The orchestrator's step sequence in world `w`. -/
def trace (w : World) : List Event := (run w).1.trace

/-- How the orchestrator ends in world `w`. -/
def outcome (w : World) : Outcome Unit := (run w).2

/-- The process exit status an outcome stands for: `Run` returning lets the
process end with status 0, a fatal log ends it with its code, and a blocked
orchestrator has no exit status. -/
def exitStatus : Outcome Unit → Option Nat
  | .value _ => some 0
  | .exit c => some c
  | .blocked => none

/-! ## The goroutine and the traces of the whole process -/

/-- The body of the goroutine `go func() { httpServer.Run(stopCh) }()`: the
call is made, and its return is a step only if it returns. -/
def goroutine (w : World) (httpServer : Server) (stopCh : Chan) : List Event :=
  .HttpServerRun httpServer stopCh ::
    match w.HttpServerRun httpServer stopCh with
    | .returns _ => [.HttpServerRunReturned httpServer]
    | .never => []

/-- The steps of the goroutine a `go` statement launches; no other step
launches one. -/
def launches (w : World) : Event → List Event
  | .GoHttpServerRun httpServer stopCh => goroutine w httpServer stopCh
  | _ => []

/-- The steps of all goroutines launched in the run, in launch order. -/
def spawned (w : World) : List Event := ((trace w).map (launches w)).flatten

/-- A step of a launched goroutine, as opposed to one of the orchestrator. -/
def Event.isTask : Event → Bool
  | .HttpServerRun _ _ => true
  | .HttpServerRunReturned _ => true
  | _ => false

/-- The `go` statement that launches `httpServer.Run`. -/
def Event.isGo : Event → Bool
  | .GoHttpServerRun _ _ => true
  | _ => false

/-- An invocation of `httpServer.Run` inside the goroutine. -/
def Event.isHttpServerRun : Event → Bool
  | .HttpServerRun _ _ => true
  | _ => false

/-- An invocation of `ctrl.Run`. -/
def Event.isCtrlRun : Event → Bool
  | .CtrlRun _ _ _ => true
  | _ => false

/-- A call of `iamInformerFactory.Start`, on any channel. -/
def Event.isStart : Event → Bool
  | .Start _ _ => true
  | _ => false

/-- A call of `iamInformerFactory.Start(ch)`. -/
def Event.isStartOn (ch : Chan) : Event → Bool
  | .Start _ c => c == ch
  | _ => false

/-- A call of `controller.New`. -/
def Event.isControllerNew : Event → Bool
  | .ControllerNew _ _ _ => true
  | _ => false

/-- A call of `server.New`. -/
def Event.isServerNew : Event → Bool
  | .ServerNew _ _ => true
  | _ => false

/-- A call of `informers.NewSharedInformerFactory`. -/
def Event.isNewSharedInformerFactory : Event → Bool
  | .NewSharedInformerFactory _ _ => true
  | _ => false

/-- A call of `signals.SetupSignalHandler`. -/
def Event.isSetupSignalHandler : Event → Bool
  | .SetupSignalHandler _ => true
  | _ => false

/-- A call of one of the two REST-config constructors,
`clientcmd.BuildConfigFromFlags` and `rest.InClusterConfig`. -/
def Event.isRestConfigConstructor : Event → Bool
  | .BuildConfigFromFlags _ _ => true
  | .InClusterConfig => true
  | _ => false

/-- A call of one of the constructors that reach for a real API endpoint:
the two REST-config constructors, `kubernetes.NewForConfig` and
`clientset.NewForConfig`. -/
def Event.isRealConnection : Event → Bool
  | .BuildConfigFromFlags _ _ => true
  | .InClusterConfig => true
  | .KubernetesNewForConfig _ => true
  | .ClientsetNewForConfig _ => true
  | _ => false

/-- A fatal log. -/
def Event.isFatal : Event → Bool
  | .Fatal _ => true
  | _ => false

/-- Whether the construction call an event stands for returned an error in
world `w`; steps that are no construction call do not. -/
def constructionError (w : World) : Event → Bool
  | .BuildConfigFromFlags masterUrl kubeconfigPath =>
    match w.BuildConfigFromFlags masterUrl kubeconfigPath with
    | .error _ => true
    | .ok _ => false
  | .InClusterConfig =>
    match w.InClusterConfig with
    | .error _ => true
    | .ok _ => false
  | .KubernetesNewForConfig c => (w.KubernetesNewForConfig c).isSome
  | .ClientsetNewForConfig c => (w.ClientsetNewForConfig c).isSome
  | _ => false

/-- Some construction call made in the run (of the REST config, of the
kubernetes client or of the IAM identity-mapping client) returned an error. -/
def constructionFails (w : World) : Bool := (trace w).any (constructionError w)

/-- What each `ctrl.Run` invocation of the run does, in order. -/
def ctrlRunResults (w : World) : List (Blocking (Option GoError)) :=
  (trace w).filterMap fun
    | .CtrlRun ctrl threadiness stopCh => some (w.CtrlRun ctrl threadiness stopCh)
    | _ => none

/-- In `l`, every step satisfying `q` has a step satisfying `p` strictly
before it. -/
def PrecededBy (p q : Event → Bool) (l : List Event) : Prop :=
  ∀ l1 e l2, l = l1 ++ e :: l2 → q e = true → ∃ s ∈ l1, p s = true

/-- Decision procedure for `PrecededBy`. -/
def precededBy (p q : Event → Bool) : List Event → Bool
  | [] => true
  | e :: l => !q e && (p e || precededBy p q l)

/-- The sequences of steps the whole process can have performed at some
moment: the orchestrator's steps are an initial part of its trace, in order;
the goroutine's steps are an initial part of its body, in order; and a
goroutine step comes only after a `go` statement (a `go` statement happens
before the start of the goroutine it launches). -/
def isProcessTrace (w : World) (g : List Event) : Bool :=
  (g.filter fun e => !e.isTask).isPrefixOf (trace w) &&
  (g.filter Event.isTask).isPrefixOf (spawned w) &&
  precededBy Event.isGo Event.isTask g

/-- The REST-config constructor call that `Run` makes for `cfg`, as a step. -/
def restConfigEvent (cfg : Config) : Event :=
  if cfg.Master != "" || cfg.Kubeconfig != "" then
    .BuildConfigFromFlags cfg.Master cfg.Kubeconfig
  else .InClusterConfig

/-- What the REST-config constructor call that `Run` makes for `cfg` answers. -/
def restConfigResult (w : World) (cfg : Config) : Except GoError RestConfig :=
  if cfg.Master != "" || cfg.Kubeconfig != "" then
    w.BuildConfigFromFlags cfg.Master cfg.Kubeconfig
  else w.InClusterConfig

/-- The steps every run that gets a configuration starts with. -/
def preamble (w : World) : List Event :=
  [.SetupSignalHandler w.SetupSignalHandler, .GetConfig,
    .Infof "Feature Gates %+v", .Enabled .IAMIdentityMappingCRD]

/-- The watch cache `Run` builds in FULL mode over the REST config `c`. -/
def fullFactory (c : RestConfig) : SharedInformerFactory :=
  ⟨.real c, Duration.mul Second 36000⟩

/-- The controller `Run` builds in FULL mode over the REST config `c`. -/
def fullCtrl (c : RestConfig) : Controller :=
  ⟨.real c, .real c, (fullFactory c).IAMIdentityMappings⟩

/-- The steps of a FULL-mode run over the REST config `c`, from the first
client constructor up to the invocation of `ctrl.Run`. -/
def fullSteps (w : World) (cfg : Config) (c : RestConfig) : List Event :=
  [.KubernetesNewForConfig c, .ClientsetNewForConfig c,
    .NewSharedInformerFactory (.real c) (Duration.mul Second 36000),
    .ControllerNew (.real c) (.real c) (fullFactory c).IAMIdentityMappings,
    .ServerNew cfg (fullFactory c).IAMIdentityMappings,
    .Start (fullFactory c) w.SetupSignalHandler,
    .GoHttpServerRun ⟨cfg, (fullFactory c).IAMIdentityMappings⟩ w.SetupSignalHandler,
    .CtrlRun (fullCtrl c) 2 w.SetupSignalHandler]

/-- The steps of a FULL-mode run after the invocation of `ctrl.Run`: a fatal
log if it returned an error, none otherwise. -/
def ctrlTail : Blocking (Option GoError) → List Event
  | .returns (some _) => [.Fatal "controller exited"]
  | .returns none => []
  | .never => []

/-- How a FULL-mode run ends after the invocation of `ctrl.Run`. -/
def ctrlOutcome : Blocking (Option GoError) → Outcome Unit
  | .returns (some _) => .exit 1
  | .returns none => .value ()
  | .never => .blocked

/-- The steps of a BYPASS-mode run after the preamble. -/
def bypassSteps (w : World) (cfg : Config) : List Event :=
  [.K8sFakeNewSimpleClientset [], .FakeNewSimpleClientset [],
    .NewSharedInformerFactory (.fake []) noResyncPeriodFunc,
    .Start ⟨.fake [], noResyncPeriodFunc⟩ w.SetupSignalHandler,
    .ServerNew cfg (SharedInformerFactory.IAMIdentityMappings ⟨.fake [], noResyncPeriodFunc⟩),
    .GoHttpServerRun
      ⟨cfg, SharedInformerFactory.IAMIdentityMappings ⟨.fake [], noResyncPeriodFunc⟩⟩
      w.SetupSignalHandler,
    .RecvStop w.SetupSignalHandler]

/-- A step that hands no resync period other than `d` to
`informers.NewSharedInformerFactory`. -/
def Event.resyncIs (d : Duration) : Event → Bool
  | .NewSharedInformerFactory _ d' => d' == d
  | _ => true

/-- A step that uses no channel other than `ch`: every step that creates,
receives from or passes on a stop channel does so with `ch`. -/
def Event.onChan (ch : Chan) : Event → Bool
  | .SetupSignalHandler c => c == ch
  | .Start _ c => c == ch
  | .GoHttpServerRun _ c => c == ch
  | .CtrlRun _ _ c => c == ch
  | .RecvStop c => c == ch
  | .HttpServerRun _ c => c == ch
  | _ => true

/-- A step that invokes `ctrl.Run` with no worker count other than `n`. -/
def Event.workersAre (n : Nat) : Event → Bool
  | .CtrlRun _ k _ => k == n
  | _ => true

/-! ## Example worlds -/

/-- A configuration with the gate enabled and no explicit connection
parameters. -/
def cfgInCluster : Config := ⟨⟨true⟩, "", "", "127.0.0.1"⟩

/-- A configuration with the gate enabled and an explicit endpoint. -/
def cfgFlags : Config := ⟨⟨true⟩, "https://10.0.0.1:6443", "", "127.0.0.1"⟩

/-- A configuration with the gate disabled; its connection parameters are set
all the same. -/
def cfgBypass : Config :=
  ⟨⟨false⟩, "https://10.0.0.1:6443", "/etc/kubernetes/admin.conf", "127.0.0.1"⟩

/-- A world in which every collaborator succeeds: the configuration is `cfg`,
the termination request arrives, `ctrl.Run` then returns nil and
`httpServer.Run` returns. -/
def happyWorld (cfg : Config) : World where
  SetupSignalHandler := ⟨1⟩
  closed := fun _ => true
  getConfig := .ok cfg
  BuildConfigFromFlags := fun masterUrl _ => .ok ⟨masterUrl⟩
  InClusterConfig := .ok ⟨"https://kubernetes.default.svc"⟩
  KubernetesNewForConfig := fun _ => none
  ClientsetNewForConfig := fun _ => none
  CtrlRun := fun _ _ _ => .returns none
  HttpServerRun := fun _ _ => .returns none

/-- Scenario C: gate enabled, no explicit parameters, no ambient credentials. -/
def noCredentialsWorld : World :=
  { happyWorld cfgInCluster with InClusterConfig := .error "not running in a cluster" }

/-- Scenario D: the controller fails although no termination request came. -/
def controllerFailsWorld : World :=
  { happyWorld cfgInCluster with
    closed := fun _ => false
    CtrlRun := fun _ _ _ => .returns (some "failed to wait for caches to sync") }

/-- A sequence of steps of the whole process in the happy world with
in-cluster credentials: the goroutine invokes `httpServer.Run` between the
`go` statement and the orchestrator's invocation of `ctrl.Run`. -/
def happyProcessTrace : List Event :=
  (trace (happyWorld cfgInCluster)).take 12 ++
    (spawned (happyWorld cfgInCluster)).take 1 ++
    (trace (happyWorld cfgInCluster)).drop 12

/-! ## Normal forms of the run -/

theorem run_getConfig_error (w : World) (err : GoError) (hc : w.getConfig = .error err) :
    run w = (⟨[.SetupSignalHandler w.SetupSignalHandler, .GetConfig, .Fatal err],
      none, none, none, none⟩, .exit 1) := by
  unfold run serverCmdRun
  simp only [bind, Step.bind, emit, assign, await, pure, Step.pure, Fatal, hc]
  rfl

theorem run_bypass (w : World) (cfg : Config) (hc : w.getConfig = .ok cfg)
    (hg : cfg.FeatureGates.Enabled .IAMIdentityMappingCRD = false) :
    run w = (⟨[.SetupSignalHandler w.SetupSignalHandler, .GetConfig,
        .Infof "Feature Gates %+v", .Enabled .IAMIdentityMappingCRD,
        .K8sFakeNewSimpleClientset [], .FakeNewSimpleClientset [],
        .NewSharedInformerFactory (.fake []) 0,
        .Start ⟨.fake [], 0⟩ w.SetupSignalHandler,
        .ServerNew cfg ⟨⟨.fake [], 0⟩⟩,
        .GoHttpServerRun ⟨cfg, ⟨⟨.fake [], 0⟩⟩⟩ w.SetupSignalHandler,
        .RecvStop w.SetupSignalHandler],
      none, some (.fake []), some (.fake []), some ⟨.fake [], 0⟩⟩,
      if w.closed w.SetupSignalHandler then .value () else .blocked) := by
  unfold run serverCmdRun
  simp only [bind, Step.bind, emit, assign, await, pure, Step.pure, Fatal, hc, hg]
  cases w.closed w.SetupSignalHandler <;> rfl

theorem run_full_config_error (w : World) (cfg : Config) (err : GoError)
    (hc : w.getConfig = .ok cfg)
    (hg : cfg.FeatureGates.Enabled .IAMIdentityMappingCRD = true)
    (hr : restConfigResult w cfg = .error err) :
    run w = (⟨preamble w ++ [restConfigEvent cfg, .Fatal "can't create kubernetes config"],
      none, none, none, none⟩, .exit 1) := by
  unfold restConfigResult at hr
  unfold run serverCmdRun restConfigEvent
  by_cases hcond : (cfg.Master != "" || cfg.Kubeconfig != "") = true
  · simp only [hcond, if_true] at hr
    simp only [bind, Step.bind, emit, assign, await, pure, Step.pure, Fatal, hc, hg, hcond,
      if_true, if_false, Bool.false_eq_true, hr]
    rfl
  · simp only [hcond, if_false, Bool.false_eq_true] at hr
    simp only [bind, Step.bind, emit, assign, await, pure, Step.pure, Fatal, hc, hg, hcond,
      if_true, if_false, Bool.false_eq_true, hr]
    rfl

theorem run_full_kube_error (w : World) (cfg : Config) (c : RestConfig) (err : GoError)
    (hc : w.getConfig = .ok cfg)
    (hg : cfg.FeatureGates.Enabled .IAMIdentityMappingCRD = true)
    (hr : restConfigResult w cfg = .ok c)
    (hk : w.KubernetesNewForConfig c = some err) :
    run w = (⟨preamble w ++ [restConfigEvent cfg, .KubernetesNewForConfig c,
        .Fatal "can't create kubernetes client"],
      some c, none, none, none⟩, .exit 1) := by
  unfold restConfigResult at hr
  unfold run serverCmdRun restConfigEvent
  by_cases hcond : (cfg.Master != "" || cfg.Kubeconfig != "") = true
  · simp only [hcond, if_true] at hr
    simp only [bind, Step.bind, emit, assign, await, pure, Step.pure, Fatal, hc, hg, hcond,
      if_true, if_false, Bool.false_eq_true, hr, hk]
    rfl
  · simp only [hcond, if_false, Bool.false_eq_true] at hr
    simp only [bind, Step.bind, emit, assign, await, pure, Step.pure, Fatal, hc, hg, hcond,
      if_true, if_false, Bool.false_eq_true, hr, hk]
    rfl

theorem run_full_iam_error (w : World) (cfg : Config) (c : RestConfig) (err : GoError)
    (hc : w.getConfig = .ok cfg)
    (hg : cfg.FeatureGates.Enabled .IAMIdentityMappingCRD = true)
    (hr : restConfigResult w cfg = .ok c)
    (hk : w.KubernetesNewForConfig c = none)
    (hi : w.ClientsetNewForConfig c = some err) :
    run w = (⟨preamble w ++ [restConfigEvent cfg, .KubernetesNewForConfig c,
        .ClientsetNewForConfig c, .Fatal "can't create iam authenticator client"],
      some c, some (.real c), none, none⟩, .exit 1) := by
  unfold restConfigResult at hr
  unfold run serverCmdRun restConfigEvent
  by_cases hcond : (cfg.Master != "" || cfg.Kubeconfig != "") = true
  · simp only [hcond, if_true] at hr
    simp only [bind, Step.bind, emit, assign, await, pure, Step.pure, Fatal, hc, hg, hcond,
      if_true, if_false, Bool.false_eq_true, hr, hk, hi]
    rfl
  · simp only [hcond, if_false, Bool.false_eq_true] at hr
    simp only [bind, Step.bind, emit, assign, await, pure, Step.pure, Fatal, hc, hg, hcond,
      if_true, if_false, Bool.false_eq_true, hr, hk, hi]
    rfl

theorem run_full_ok (w : World) (cfg : Config) (c : RestConfig)
    (hc : w.getConfig = .ok cfg)
    (hg : cfg.FeatureGates.Enabled .IAMIdentityMappingCRD = true)
    (hr : restConfigResult w cfg = .ok c)
    (hk : w.KubernetesNewForConfig c = none)
    (hi : w.ClientsetNewForConfig c = none) :
    run w = (⟨preamble w ++ restConfigEvent cfg :: fullSteps w cfg c ++
        ctrlTail (w.CtrlRun (fullCtrl c) 2 w.SetupSignalHandler),
      some c, some (.real c), some (.real c), some (fullFactory c)⟩,
      ctrlOutcome (w.CtrlRun (fullCtrl c) 2 w.SetupSignalHandler)) := by
  unfold restConfigResult at hr
  unfold run serverCmdRun restConfigEvent fullSteps fullCtrl fullFactory ctrlTail ctrlOutcome
  by_cases hcond : (cfg.Master != "" || cfg.Kubeconfig != "") = true
  · simp only [hcond, if_true] at hr
    simp only [bind, Step.bind, emit, assign, await, pure, Step.pure, Fatal, hc, hg, hcond,
      if_true, if_false, Bool.false_eq_true, hr, hk, hi]
    rcases w.CtrlRun _ 2 w.SetupSignalHandler with (_ | e) | _ <;> rfl
  · simp only [hcond, if_false, Bool.false_eq_true] at hr
    simp only [bind, Step.bind, emit, assign, await, pure, Step.pure, Fatal, hc, hg, hcond,
      if_true, if_false, Bool.false_eq_true, hr, hk, hi]
    rcases w.CtrlRun _ 2 w.SetupSignalHandler with (_ | e) | _ <;> rfl

/-! ## Order of steps -/

theorem precededBy_iff (p q : Event → Bool) (l : List Event) :
    precededBy p q l = true ↔ PrecededBy p q l := by
  induction l with
  | nil =>
    constructor
    · intro _ l1 e l2 h
      simp at h
    · intro _
      rfl
  | cons x l ih =>
    constructor
    · intro h l1 e l2 hl hq
      simp only [precededBy, Bool.and_eq_true, Bool.not_eq_true', Bool.or_eq_true] at h
      cases l1 with
      | nil =>
        simp only [List.nil_append, List.cons.injEq] at hl
        rw [hl.1, hq] at h
        exact absurd h.1 (by simp)
      | cons y l1 =>
        simp only [List.cons_append, List.cons.injEq] at hl
        rcases h.2 with hp | hrest
        · exact ⟨y, List.mem_cons_self _ _, hl.1 ▸ hp⟩
        · obtain ⟨s, hs, hps⟩ := (ih.mp hrest) l1 e l2 hl.2 hq
          exact ⟨s, List.mem_cons_of_mem _ hs, hps⟩
    · intro h
      simp only [precededBy, Bool.and_eq_true, Bool.not_eq_true', Bool.or_eq_true]
      constructor
      · cases hqx : q x with
        | false => rfl
        | true =>
          obtain ⟨s, hs, _⟩ := h [] x l rfl hqx
          simp at hs
      · cases hpx : p x with
        | true => exact Or.inl rfl
        | false =>
          refine Or.inr (ih.mpr ?_)
          intro l1 e l2 hl hq
          obtain ⟨s, hs, hps⟩ := h (x :: l1) e l2 (by rw [hl]; rfl) hq
          rcases List.mem_cons.mp hs with hsx | hsl
          · rw [hsx, hpx] at hps
            exact absurd hps (by simp)
          · exact ⟨s, hsl, hps⟩

theorem PrecededBy.of_initial {p q : Event → Bool} {l l' : List Event}
    (hl : l' <+: l) (h : PrecededBy p q l) : PrecededBy p q l' := by
  obtain ⟨t, rfl⟩ := hl
  intro l1 e l2 hsplit hq
  exact h l1 e (l2 ++ t) (by rw [hsplit]; simp) hq

theorem PrecededBy.of_filter {p q : Event → Bool} (r : Event → Bool) {l : List Event}
    (hqr : ∀ e, q e = true → r e = true) (h : PrecededBy p q (l.filter r)) :
    PrecededBy p q l := by
  intro l1 e l2 hsplit hq
  have hf : l.filter r = l1.filter r ++ e :: l2.filter r := by
    rw [hsplit, List.filter_append, List.filter_cons_of_pos (hqr e hq)]
  obtain ⟨s, hs, hps⟩ := h _ e _ hf hq
  exact ⟨s, (List.mem_filter.mp hs).1, hps⟩

theorem PrecededBy.trans {p q r : Event → Bool} {l : List Event}
    (hpq : PrecededBy p q l) (hqr : PrecededBy q r l) : PrecededBy p r l := by
  intro l1 e l2 hsplit hr
  obtain ⟨s, hs, hqs⟩ := hqr l1 e l2 hsplit hr
  obtain ⟨m1, m2, rfl⟩ := List.append_of_mem hs
  obtain ⟨t, ht, hpt⟩ := hpq m1 s (m2 ++ e :: l2) (by rw [hsplit]; simp) hqs
  exact ⟨t, List.mem_append_left _ ht, hpt⟩

theorem PrecededBy.mono {p q q' : Event → Bool} {l : List Event}
    (hq : ∀ e, q' e = true → q e = true) (h : PrecededBy p q l) : PrecededBy p q' l :=
  fun l1 e l2 hsplit hq' => h l1 e l2 hsplit (hq e hq')

theorem restConfigEvent_cases (cfg : Config) :
    restConfigEvent cfg = .BuildConfigFromFlags cfg.Master cfg.Kubeconfig ∨
      restConfigEvent cfg = .InClusterConfig := by
  unfold restConfigEvent
  split
  · exact Or.inl rfl
  · exact Or.inr rfl

theorem constructionError_restConfigEvent (w : World) (cfg : Config) :
    constructionError w (restConfigEvent cfg) =
      match restConfigResult w cfg with
      | .error _ => true
      | .ok _ => false := by
  unfold restConfigEvent restConfigResult
  split <;> rfl

theorem ctrlTail_cases (r : Blocking (Option GoError)) :
    ctrlTail r = [] ∨ ctrlTail r = [.Fatal "controller exited"] := by
  rcases r with (_ | e) | _
  · exact Or.inl rfl
  · exact Or.inr rfl
  · exact Or.inl rfl

/-- In FULL mode no construction call fails exactly when the selected
REST-config constructor and both client constructors succeed. -/
theorem constructionFails_eq_false_iff (w : World) (cfg : Config)
    (hc : w.getConfig = .ok cfg)
    (hg : cfg.FeatureGates.Enabled .IAMIdentityMappingCRD = true) :
    constructionFails w = false ↔
      ∃ c, restConfigResult w cfg = .ok c ∧ w.KubernetesNewForConfig c = none ∧
        w.ClientsetNewForConfig c = none := by
  rcases hr : restConfigResult w cfg with err | c
  · have hev : constructionError w (restConfigEvent cfg) = true := by
      rw [constructionError_restConfigEvent, hr]
    simp only [constructionFails, trace, run_full_config_error w cfg err hc hg hr, preamble,
      List.any_append, List.any_cons, List.any_nil, hev]
    simp [constructionError]
  · have hev : constructionError w (restConfigEvent cfg) = false := by
      rw [constructionError_restConfigEvent, hr]
    rcases hk : w.KubernetesNewForConfig c with _ | err
    · rcases hi : w.ClientsetNewForConfig c with _ | err
      · rcases ctrlTail_cases (w.CtrlRun (fullCtrl c) 2 w.SetupSignalHandler) with ht | ht <;>
        · simp only [constructionFails, trace, run_full_ok w cfg c hc hg hr hk hi, preamble,
            fullSteps, List.any_append, List.any_cons, List.any_nil, hev, ht]
          simp [constructionError, hk, hi]
      · simp only [constructionFails, trace, run_full_iam_error w cfg c err hc hg hr hk hi,
          preamble, List.any_append, List.any_cons, List.any_nil, hev]
        simp [constructionError, hk, hi]
    · simp only [constructionFails, trace, run_full_kube_error w cfg c err hc hg hr hk,
        preamble, List.any_append, List.any_cons, List.any_nil, hev]
      simp [constructionError, hk]

/-- Normal form of a FULL-mode run in which no construction call fails. -/
theorem full_success (w : World) (cfg : Config)
    (hc : w.getConfig = .ok cfg)
    (hg : cfg.FeatureGates.Enabled .IAMIdentityMappingCRD = true)
    (hf : constructionFails w = false) :
    ∃ c, restConfigResult w cfg = .ok c ∧
      trace w = preamble w ++ restConfigEvent cfg :: fullSteps w cfg c ++
        ctrlTail (w.CtrlRun (fullCtrl c) 2 w.SetupSignalHandler) ∧
      outcome w = ctrlOutcome (w.CtrlRun (fullCtrl c) 2 w.SetupSignalHandler) := by
  obtain ⟨c, hr, hk, hi⟩ := (constructionFails_eq_false_iff w cfg hc hg).mp hf
  refine ⟨c, hr, ?_, ?_⟩
  · unfold trace
    rw [run_full_ok w cfg c hc hg hr hk hi]
  · unfold outcome
    rw [run_full_ok w cfg c hc hg hr hk hi]

/-- Normal form of a FULL-mode run in which a construction call fails. -/
theorem full_failure (w : World) (cfg : Config)
    (hc : w.getConfig = .ok cfg)
    (hg : cfg.FeatureGates.Enabled .IAMIdentityMappingCRD = true)
    (hf : constructionFails w = true) :
    ∃ mid msg, trace w = preamble w ++ restConfigEvent cfg :: mid ++ [.Fatal msg] ∧
      outcome w = .exit 1 ∧
      (mid = [] ∨ ∃ c, mid = [.KubernetesNewForConfig c] ∨
        mid = [.KubernetesNewForConfig c, .ClientsetNewForConfig c]) := by
  unfold trace outcome
  rcases hr : restConfigResult w cfg with err | c
  · rw [run_full_config_error w cfg err hc hg hr]
    exact ⟨[], _, rfl, rfl, Or.inl rfl⟩
  · rcases hk : w.KubernetesNewForConfig c with _ | err
    · rcases hi : w.ClientsetNewForConfig c with _ | err
      · have := (constructionFails_eq_false_iff w cfg hc hg).mpr ⟨c, hr, hk, hi⟩
        rw [this] at hf
        exact absurd hf (by simp)
      · rw [run_full_iam_error w cfg c err hc hg hr hk hi]
        exact ⟨[.KubernetesNewForConfig c, .ClientsetNewForConfig c], _, rfl, rfl,
          Or.inr ⟨c, Or.inr rfl⟩⟩
    · rw [run_full_kube_error w cfg c err hc hg hr hk]
      exact ⟨[.KubernetesNewForConfig c], _, rfl, rfl, Or.inr ⟨c, Or.inl rfl⟩⟩

theorem restConfigEvent_of_empty (cfg : Config) (h : cfg.Master = "" ∧ cfg.Kubeconfig = "") :
    restConfigEvent cfg = .InClusterConfig := by
  unfold restConfigEvent
  simp [h.1, h.2]

theorem restConfigEvent_of_not_empty (cfg : Config)
    (h : ¬(cfg.Master = "" ∧ cfg.Kubeconfig = "")) :
    restConfigEvent cfg = .BuildConfigFromFlags cfg.Master cfg.Kubeconfig := by
  unfold restConfigEvent
  have : (cfg.Master != "" || cfg.Kubeconfig != "") = true := by
    by_cases h1 : cfg.Master = ""
    · by_cases h2 : cfg.Kubeconfig = ""
      · exact absurd ⟨h1, h2⟩ h
      · simp [h2]
    · simp [h1]
  rw [if_pos this]

/-- Every FULL-mode run calls the selected REST-config constructor right after
the preamble, and no REST-config constructor after that. -/
theorem full_shape (w : World) (cfg : Config)
    (hc : w.getConfig = .ok cfg)
    (hg : cfg.FeatureGates.Enabled .IAMIdentityMappingCRD = true) :
    ∃ rest, trace w = preamble w ++ restConfigEvent cfg :: rest ∧
      rest.any Event.isRestConfigConstructor = false := by
  cases hf : constructionFails w with
  | true =>
    obtain ⟨mid, msg, ht, _, hshape⟩ := full_failure w cfg hc hg hf
    refine ⟨mid ++ [.Fatal msg], by rw [ht]; simp, ?_⟩
    rcases hshape with h | ⟨c, h | h⟩ <;> rw [h] <;> rfl
  | false =>
    obtain ⟨c, _, ht, _⟩ := full_success w cfg hc hg hf
    refine ⟨fullSteps w cfg c ++ ctrlTail (w.CtrlRun (fullCtrl c) 2 w.SetupSignalHandler),
      by rw [ht]; simp, ?_⟩
    rcases ctrlTail_cases (w.CtrlRun (fullCtrl c) 2 w.SetupSignalHandler) with h | h <;>
      rw [h] <;> rfl

/-- Normal form of a BYPASS-mode run. -/
theorem bypass_normal_form (w : World) (cfg : Config)
    (hc : w.getConfig = .ok cfg)
    (hg : cfg.FeatureGates.Enabled .IAMIdentityMappingCRD = false) :
    trace w = preamble w ++ bypassSteps w cfg ∧
      outcome w = if w.closed w.SetupSignalHandler then .value () else .blocked := by
  unfold trace outcome
  rw [run_bypass w cfg hc hg]
  exact ⟨rfl, rfl⟩

/-- The four shapes a trace of the orchestrator can have. -/
theorem trace_cases (w : World) :
    (∃ err, w.getConfig = .error err ∧
      trace w = [.SetupSignalHandler w.SetupSignalHandler, .GetConfig, .Fatal err]) ∨
    (∃ cfg, w.getConfig = .ok cfg ∧
      cfg.FeatureGates.Enabled .IAMIdentityMappingCRD = false ∧
      trace w = preamble w ++ bypassSteps w cfg) ∨
    (∃ cfg mid msg, w.getConfig = .ok cfg ∧
      cfg.FeatureGates.Enabled .IAMIdentityMappingCRD = true ∧
      trace w = preamble w ++ restConfigEvent cfg :: mid ++ [.Fatal msg] ∧
      (mid = [] ∨ ∃ c, mid = [.KubernetesNewForConfig c] ∨
        mid = [.KubernetesNewForConfig c, .ClientsetNewForConfig c])) ∨
    (∃ cfg c, w.getConfig = .ok cfg ∧
      cfg.FeatureGates.Enabled .IAMIdentityMappingCRD = true ∧
      trace w = preamble w ++ restConfigEvent cfg :: fullSteps w cfg c ++
        ctrlTail (w.CtrlRun (fullCtrl c) 2 w.SetupSignalHandler)) := by
  rcases hc : w.getConfig with err | cfg
  · refine Or.inl ⟨err, rfl, ?_⟩
    unfold trace
    rw [run_getConfig_error w err hc]
  · cases hg : cfg.FeatureGates.Enabled .IAMIdentityMappingCRD with
    | false => exact Or.inr (Or.inl ⟨cfg, rfl, hg, (bypass_normal_form w cfg hc hg).1⟩)
    | true =>
      cases hf : constructionFails w with
      | true =>
        obtain ⟨mid, msg, ht, _, hshape⟩ := full_failure w cfg hc hg hf
        exact Or.inr (Or.inr (Or.inl ⟨cfg, mid, msg, rfl, hg, ht, hshape⟩))
      | false =>
        obtain ⟨c, _, ht, _⟩ := full_success w cfg hc hg hf
        exact Or.inr (Or.inr (Or.inr ⟨cfg, c, rfl, hg, ht⟩))

/-- Every step of the orchestrator that touches a stop channel touches the
one `signals.SetupSignalHandler` returned. -/
theorem trace_onChan (w : World) :
    (trace w).all (Event.onChan w.SetupSignalHandler) = true := by
  rcases trace_cases w with ⟨err, _, ht⟩ | ⟨cfg, _, _, ht⟩ | ⟨cfg, mid, msg, _, _, ht, hshape⟩ |
      ⟨cfg, c, _, _, ht⟩
  · rw [ht]
    simp [Event.onChan]
  · rw [ht]
    simp [preamble, bypassSteps, Event.onChan]
  · rw [ht]
    rcases restConfigEvent_cases cfg with h | h <;>
      rcases hshape with h2 | ⟨c, h2 | h2⟩ <;> rw [h, h2] <;>
      simp [preamble, Event.onChan]
  · rw [ht]
    rcases restConfigEvent_cases cfg with h | h <;>
      rcases ctrlTail_cases (w.CtrlRun (fullCtrl c) 2 w.SetupSignalHandler) with h2 | h2 <;>
      rw [h, h2] <;> simp [preamble, fullSteps, Event.onChan]

/-- The goroutine uses the channel of the `go` statement that launched it. -/
theorem spawned_onChan (w : World) :
    (spawned w).all (Event.onChan w.SetupSignalHandler) = true := by
  rw [List.all_eq_true]
  intro e he
  unfold spawned at he
  obtain ⟨l, hl, hel⟩ := List.mem_flatten.mp he
  obtain ⟨g, hg, rfl⟩ := List.mem_map.mp hl
  have hgch := List.all_eq_true.mp (trace_onChan w) g hg
  cases g <;> simp only [launches, List.not_mem_nil] at hel
  rename_i srv ch
  simp only [Event.onChan, beq_iff_eq] at hgch
  subst hgch
  unfold goroutine at hel
  rcases List.mem_cons.mp hel with h | h
  · rw [h]
    simp [Event.onChan]
  · split at h <;> simp at h
    rw [h]
    rfl

/-- The orchestrator calls `signals.SetupSignalHandler` once in every run. -/
theorem count_setupSignalHandler (w : World) :
    (trace w).countP Event.isSetupSignalHandler = 1 := by
  rcases trace_cases w with ⟨err, _, ht⟩ | ⟨cfg, _, _, ht⟩ | ⟨cfg, mid, msg, _, _, ht, hshape⟩ |
      ⟨cfg, c, _, _, ht⟩
  · rw [ht]
    rfl
  · rw [ht]
    rfl
  · rw [ht]
    rcases restConfigEvent_cases cfg with h | h <;>
      rcases hshape with h2 | ⟨c, h2 | h2⟩ <;> rw [h, h2] <;> rfl
  · rw [ht]
    rcases restConfigEvent_cases cfg with h | h <;>
      rcases ctrlTail_cases (w.CtrlRun (fullCtrl c) 2 w.SetupSignalHandler) with h2 | h2 <;>
      rw [h, h2] <;> rfl

/-- In every run the cache is started on the stop channel before the `go`
statement and before `ctrl.Run` is invoked. -/
theorem trace_start_first (w : World) :
    PrecededBy (Event.isStartOn w.SetupSignalHandler) (fun e => e.isGo || e.isCtrlRun)
      (trace w) := by
  rw [← precededBy_iff]
  rcases trace_cases w with ⟨err, _, ht⟩ | ⟨cfg, _, _, ht⟩ | ⟨cfg, mid, msg, _, _, ht, hshape⟩ |
      ⟨cfg, c, _, _, ht⟩
  · rw [ht]
    rfl
  · rw [ht]
    simp [preamble, bypassSteps, precededBy, Event.isStartOn, Event.isGo, Event.isCtrlRun]
  · rw [ht]
    rcases restConfigEvent_cases cfg with h | h <;>
      rcases hshape with h2 | ⟨c, h2 | h2⟩ <;> rw [h, h2] <;> rfl
  · rw [ht]
    rcases restConfigEvent_cases cfg with h | h <;>
      rcases ctrlTail_cases (w.CtrlRun (fullCtrl c) 2 w.SetupSignalHandler) with h2 | h2 <;>
      rw [h, h2] <;>
      simp [preamble, fullSteps, precededBy, Event.isStartOn, Event.isGo, Event.isCtrlRun]

/-! ## The claims -/

/-- C1: with the IAMIdentityMappingCRD feature gate disabled, the run performs
no `controller.New`, no `ctrl.Run` and none of the real-connection
constructors, and both clients are the in-memory fake clientsets, whatever
`cfg.Master` and `cfg.Kubeconfig` are. -/
theorem C1_bypass_no_controller_no_real_connection (w : World) (cfg : Config)
    (hc : w.getConfig = .ok cfg)
    (hg : cfg.FeatureGates.Enabled .IAMIdentityMappingCRD = false) :
    (∀ e ∈ trace w,
      e.isControllerNew = false ∧ e.isCtrlRun = false ∧ e.isRealConnection = false) ∧
    (run w).1.kubeClient = some (.fake []) ∧
    (run w).1.iamClient = some (.fake []) ∧
    Event.K8sFakeNewSimpleClientset [] ∈ trace w ∧
    Event.FakeNewSimpleClientset [] ∈ trace w ∧
    (∀ client d, Event.NewSharedInformerFactory client d ∈ trace w → client = .fake []) := by
  unfold trace
  rw [run_bypass w cfg hc hg]
  refine ⟨?_, rfl, rfl, by simp, by simp, ?_⟩
  · intro e he
    simp only [List.mem_cons, List.mem_singleton, List.not_mem_nil, or_false] at he
    rcases he with h | h | h | h | h | h | h | h | h | h | h <;> subst h <;>
      exact ⟨rfl, rfl, rfl⟩
  · intro client d h
    simp only [List.mem_cons, List.mem_singleton, List.not_mem_nil, or_false,
      Event.NewSharedInformerFactory.injEq, reduceCtorEq, false_or] at h
    exact h.1

/-- Witness of C1 in a world whose configuration sets both connection
parameters. -/
theorem C1_witness :
    (happyWorld cfgBypass).getConfig = .ok cfgBypass ∧
    cfgBypass.FeatureGates.Enabled .IAMIdentityMappingCRD = false ∧
    (run (happyWorld cfgBypass)).1.kubeClient = some (.fake []) ∧
    (run (happyWorld cfgBypass)).1.iamClient = some (.fake []) :=
  have h := C1_bypass_no_controller_no_real_connection (happyWorld cfgBypass) cfgBypass rfl rfl
  ⟨rfl, rfl, h.2.1, h.2.2.1⟩

/-- C7: the behaviour of `httpServer.Run` does not reach the orchestrator: in
two worlds that differ only in what `httpServer.Run` does, the orchestrator
performs the same steps, ends the same way and has the same exit status, and
in every trace of the whole process the orchestrator's own steps are an
initial part of that same step sequence. -/
theorem C7_server_behaviour_not_observed (w : World)
    (s : Server → Chan → Blocking (Option GoError)) :
    trace { w with HttpServerRun := s } = trace w ∧
    outcome { w with HttpServerRun := s } = outcome w ∧
    exitStatus (outcome { w with HttpServerRun := s }) = exitStatus (outcome w) ∧
    (run { w with HttpServerRun := s }).1 = (run w).1 ∧
    ∀ g, isProcessTrace { w with HttpServerRun := s } g = true →
      (g.filter fun e => !e.isTask) <+: trace w := by
  refine ⟨rfl, rfl, rfl, rfl, ?_⟩
  intro g hg
  simp only [isProcessTrace, Bool.and_eq_true] at hg
  exact List.isPrefixOf_iff_prefix.mp hg.1.1

/-- Witness of C7: the happy world with a server that never returns, and a
process trace in which the goroutine has invoked `httpServer.Run`. -/
theorem C7_witness :
    isProcessTrace { happyWorld cfgInCluster with HttpServerRun := fun _ _ => .never }
      happyProcessTrace = true ∧
    happyProcessTrace.any Event.isHttpServerRun = true ∧
    (happyProcessTrace.filter fun e => !e.isTask) <+: trace (happyWorld cfgInCluster) :=
  ⟨rfl, rfl,
    (C7_server_behaviour_not_observed (happyWorld cfgInCluster) (fun _ _ => .never)).2.2.2.2
      happyProcessTrace rfl⟩

/-- C2: with the feature gate enabled, if a construction call (of the REST
config, of the kubernetes client or of the IAM identity-mapping client)
returns an error, the process ends with a fatal log and a non-zero status, and
the trace up to the exit contains no informer-factory `Start`, no launch of
`httpServer.Run` and no `ctrl.Run`. -/
theorem C2_construction_failure_is_fatal (w : World) (cfg : Config)
    (hc : w.getConfig = .ok cfg)
    (hg : cfg.FeatureGates.Enabled .IAMIdentityMappingCRD = true)
    (hf : constructionFails w = true) :
    outcome w = .exit 1 ∧
    (∃ code, exitStatus (outcome w) = some code ∧ code ≠ 0) ∧
    (∃ steps msg, trace w = steps ++ [.Fatal msg]) ∧
    (∀ e ∈ trace w, e.isStart = false ∧ e.isGo = false ∧ e.isCtrlRun = false) ∧
    spawned w = [] := by
  obtain ⟨mid, msg, ht, ho, hshape⟩ := full_failure w cfg hc hg hf
  have hmid : mid.any (fun e => e.isStart || e.isGo || e.isCtrlRun) = false := by
    rcases hshape with h | ⟨c, h | h⟩ <;> rw [h] <;> rfl
  have hrest : (fun e : Event => e.isStart || e.isGo || e.isCtrlRun) (restConfigEvent cfg)
      = false := by
    rcases restConfigEvent_cases cfg with h | h <;> rw [h] <;> rfl
  have hall : (trace w).any (fun e => e.isStart || e.isGo || e.isCtrlRun) = false := by
    rw [ht]
    simp only [List.any_append, List.any_cons, hmid, hrest]
    rfl
  refine ⟨ho, ⟨1, by rw [ho]; rfl, by decide⟩, ⟨_, _, ht⟩, ?_, ?_⟩
  · intro e he
    have := List.any_eq_false.mp hall e he
    simp only [Bool.or_eq_true, not_or, Bool.not_eq_true] at this
    exact ⟨this.1.1, this.1.2, this.2⟩
  · unfold spawned
    rw [List.flatten_eq_nil_iff]
    intro l hl
    obtain ⟨e, he, rfl⟩ := List.mem_map.mp hl
    have := List.any_eq_false.mp hall e he
    simp only [Bool.or_eq_true, not_or, Bool.not_eq_true] at this
    cases e <;> first | rfl | exact absurd this.1.2 (by simp [Event.isGo])

/-- Witness of C2: Scenario C, no explicit parameters and no ambient
credentials. -/
theorem C2_witness :
    noCredentialsWorld.getConfig = .ok cfgInCluster ∧
    cfgInCluster.FeatureGates.Enabled .IAMIdentityMappingCRD = true ∧
    constructionFails noCredentialsWorld = true ∧
    outcome noCredentialsWorld = .exit 1 :=
  ⟨rfl, rfl, rfl,
    (C2_construction_failure_is_fatal noCredentialsWorld cfgInCluster rfl rfl rfl).1⟩

/-- C3: with the feature gate enabled and successful client construction,
`ctrl.Run` is invoked once, and the process exits with a non-zero status if
and only if that invocation returns a non-nil error; when it returns nil the
orchestrator returns normally (status zero) and no fatal log is made. -/
theorem C3_fatal_iff_controller_error (w : World) (cfg : Config)
    (hc : w.getConfig = .ok cfg)
    (hg : cfg.FeatureGates.Enabled .IAMIdentityMappingCRD = true)
    (hf : constructionFails w = false) :
    ∃ r, ctrlRunResults w = [r] ∧
      ((∃ code, exitStatus (outcome w) = some code ∧ code ≠ 0) ↔
        ∃ err, r = .returns (some err)) ∧
      (r = .returns none →
        outcome w = .value () ∧ exitStatus (outcome w) = some 0 ∧
          ∀ e ∈ trace w, e.isFatal = false) := by
  obtain ⟨c, _, ht, ho⟩ := full_success w cfg hc hg hf
  refine ⟨w.CtrlRun (fullCtrl c) 2 w.SetupSignalHandler, ?_, ?_, ?_⟩
  · unfold ctrlRunResults
    rw [ht]
    rcases restConfigEvent_cases cfg with h | h <;>
      rcases ctrlTail_cases (w.CtrlRun (fullCtrl c) 2 w.SetupSignalHandler) with h2 | h2 <;>
      rw [h, h2] <;> rfl
  · rw [ho]
    rcases w.CtrlRun (fullCtrl c) 2 w.SetupSignalHandler with (_ | e) | _ <;>
      simp [ctrlOutcome, exitStatus]
  · intro hrn
    rw [ho, hrn]
    refine ⟨rfl, rfl, ?_⟩
    have hall : (trace w).any Event.isFatal = false := by
      rw [ht, hrn]
      rcases restConfigEvent_cases cfg with h | h <;> rw [h] <;> rfl
    exact fun e he => by simpa using List.any_eq_false.mp hall e he

/-- Witness of C3: Scenario D, the controller fails and the process exits
with status 1. -/
theorem C3_witness :
    controllerFailsWorld.getConfig = .ok cfgInCluster ∧
    cfgInCluster.FeatureGates.Enabled .IAMIdentityMappingCRD = true ∧
    constructionFails controllerFailsWorld = false ∧
    ∃ r, ctrlRunResults controllerFailsWorld = [r] ∧
      ((∃ code, exitStatus (outcome controllerFailsWorld) = some code ∧ code ≠ 0) ↔
        ∃ err, r = .returns (some err)) :=
  have ⟨r, h1, h2, _⟩ :=
    C3_fatal_iff_controller_error controllerFailsWorld cfgInCluster rfl rfl rfl
  ⟨rfl, rfl, rfl, r, h1, h2⟩

/-- C6: with the feature gate enabled, `rest.InClusterConfig` is called if and
only if both `cfg.Master` and `cfg.Kubeconfig` are empty; otherwise
`clientcmd.BuildConfigFromFlags(cfg.Master, cfg.Kubeconfig)` is called; and
exactly one of the two constructors is called, once. -/
theorem C6_config_source_selection (w : World) (cfg : Config)
    (hc : w.getConfig = .ok cfg)
    (hg : cfg.FeatureGates.Enabled .IAMIdentityMappingCRD = true) :
    (Event.InClusterConfig ∈ trace w ↔ (cfg.Master = "" ∧ cfg.Kubeconfig = "")) ∧
    (Event.BuildConfigFromFlags cfg.Master cfg.Kubeconfig ∈ trace w ↔
      ¬(cfg.Master = "" ∧ cfg.Kubeconfig = "")) ∧
    (∀ masterUrl kubeconfigPath, Event.BuildConfigFromFlags masterUrl kubeconfigPath ∈ trace w →
      masterUrl = cfg.Master ∧ kubeconfigPath = cfg.Kubeconfig) ∧
    (trace w).countP Event.isRestConfigConstructor = 1 := by
  obtain ⟨rest, ht, hrest⟩ := full_shape w cfg hc hg
  have hmem : ∀ e, e.isRestConfigConstructor = true → (e ∈ trace w ↔ e = restConfigEvent cfg) := by
    intro e he
    rw [ht]
    constructor
    · intro hin
      rcases List.mem_append.mp hin with h | h
      · simp only [preamble, List.mem_cons, List.mem_singleton, List.not_mem_nil,
          or_false] at h
        rcases h with h | h | h | h <;> rw [h] at he <;>
          simp [Event.isRestConfigConstructor] at he
      · rcases List.mem_cons.mp h with h | h
        · exact h
        · have := List.any_eq_false.mp hrest e h
          exact absurd he this
    · intro h
      rw [h]
      simp
  have hcount : (trace w).countP Event.isRestConfigConstructor = 1 := by
    have h0 : rest.countP Event.isRestConfigConstructor = 0 := by
      rw [List.countP_eq_zero]
      exact fun e he => List.any_eq_false.mp hrest e he
    rw [ht, List.countP_append, List.countP_cons, h0]
    rcases restConfigEvent_cases cfg with h | h <;> rw [h] <;> rfl
  have hin := hmem .InClusterConfig rfl
  have hfl := hmem (.BuildConfigFromFlags cfg.Master cfg.Kubeconfig) rfl
  by_cases hempty : cfg.Master = "" ∧ cfg.Kubeconfig = ""
  · have hev := restConfigEvent_of_empty cfg hempty
    refine ⟨?_, ?_, ?_, hcount⟩
    · rw [hin, hev]
      simp [hempty]
    · rw [hfl, hev]
      simp [hempty]
    · intro a b h
      rw [hmem (.BuildConfigFromFlags a b) rfl, hev] at h
      exact absurd h (by simp)
  · have hev := restConfigEvent_of_not_empty cfg hempty
    refine ⟨?_, ?_, ?_, hcount⟩
    · rw [hin, hev]
      simp [hempty]
    · rw [hfl, hev]
      simp [hempty]
    · intro a b h
      rw [hmem (.BuildConfigFromFlags a b) rfl, hev] at h
      simpa using h

/-- Witness of C6 with an explicit endpoint and no credentials file. -/
theorem C6_witness :
    (happyWorld cfgFlags).getConfig = .ok cfgFlags ∧
    cfgFlags.FeatureGates.Enabled .IAMIdentityMappingCRD = true ∧
    (Event.InClusterConfig ∈ trace (happyWorld cfgFlags) ↔
      (cfgFlags.Master = "" ∧ cfgFlags.Kubeconfig = "")) ∧
    (trace (happyWorld cfgFlags)).countP Event.isRestConfigConstructor = 1 :=
  have h := C6_config_source_selection (happyWorld cfgFlags) cfgFlags rfl rfl
  ⟨rfl, rfl, h.1, h.2.2.2⟩

/-- C9: the resync interval handed to `informers.NewSharedInformerFactory` is
exactly 10 hours in FULL mode (`time.Second*36000` is `10*time.Hour`, that is
36,000,000,000,000 ns, and the product does not leave the int64 range) and
exactly zero in BYPASS mode, for every configuration. -/
theorem C9_resync_interval (w : World) (cfg : Config) (hc : w.getConfig = .ok cfg) :
    Duration.mul Second 36000 = 10 * Hour ∧
    Duration.mul Second 36000 = 36000000000000 ∧
    minInt64 ≤ Second * 36000 ∧ Second * 36000 ≤ maxInt64 ∧
    noResyncPeriodFunc = 0 ∧
    (cfg.FeatureGates.Enabled .IAMIdentityMappingCRD = true →
      (∀ client d, Event.NewSharedInformerFactory client d ∈ trace w → d = 10 * Hour) ∧
      (constructionFails w = false →
        ∃ client, Event.NewSharedInformerFactory client (10 * Hour) ∈ trace w)) ∧
    (cfg.FeatureGates.Enabled .IAMIdentityMappingCRD = false →
      Event.NewSharedInformerFactory (.fake []) 0 ∈ trace w ∧
      ∀ client d, Event.NewSharedInformerFactory client d ∈ trace w → d = 0) := by
  have hmul : Duration.mul Second 36000 = 10 * Hour := by decide
  refine ⟨hmul, by decide, by decide, by decide, rfl, ?_, ?_⟩
  · intro hg
    have hall : (trace w).all (Event.resyncIs (10 * Hour)) = true := by
      cases hf : constructionFails w with
      | true =>
        obtain ⟨mid, msg, ht, _, hshape⟩ := full_failure w cfg hc hg hf
        rw [ht]
        rcases restConfigEvent_cases cfg with h | h <;>
          rcases hshape with h2 | ⟨c, h2 | h2⟩ <;> rw [h, h2] <;> rfl
      | false =>
        obtain ⟨c, _, ht, _⟩ := full_success w cfg hc hg hf
        rw [ht]
        rcases restConfigEvent_cases cfg with h | h <;>
          rcases ctrlTail_cases (w.CtrlRun (fullCtrl c) 2 w.SetupSignalHandler) with h2 | h2 <;>
          rw [h, h2] <;> simp [preamble, fullSteps, Event.resyncIs, hmul]
    constructor
    · intro client d h
      have := List.all_eq_true.mp hall _ h
      simpa [Event.resyncIs] using this
    · intro hf
      obtain ⟨c, _, ht, _⟩ := full_success w cfg hc hg hf
      refine ⟨.real c, ?_⟩
      rw [ht, ← hmul]
      simp [fullSteps]
  · intro hg
    rw [(bypass_normal_form w cfg hc hg).1]
    constructor
    · simp [bypassSteps, noResyncPeriodFunc]
    · intro client d h
      simp only [preamble, bypassSteps, List.mem_append, List.mem_cons, List.mem_singleton,
        List.not_mem_nil, or_false, reduceCtorEq, false_or, or_self,
        Event.NewSharedInformerFactory.injEq] at h
      rw [h.2]
      rfl

/-- Witness of C9: Scenario B, the happy path with in-cluster credentials. -/
theorem C9_witness :
    (happyWorld cfgInCluster).getConfig = .ok cfgInCluster ∧
    (∃ client, Event.NewSharedInformerFactory client (10 * Hour) ∈
      trace (happyWorld cfgInCluster)) :=
  ⟨rfl, (C9_resync_interval (happyWorld cfgInCluster) cfgInCluster rfl).2.2.2.2.2.1 rfl |>.2 rfl⟩

/-- C10: in every run `signals.SetupSignalHandler` is called exactly once, so
no second cancellation signal is created; and in FULL mode with successful
construction `ctrl.Run` is invoked exactly once, with worker count 2 and with
the channel `SetupSignalHandler` returned, which is also the channel passed to
`iamInformerFactory.Start` and to `httpServer.Run`. -/
theorem C10_single_stop_channel (w : World) :
    (trace w).countP Event.isSetupSignalHandler = 1 ∧
    (∀ ch, Event.SetupSignalHandler ch ∈ trace w → ch = w.SetupSignalHandler) ∧
    ∀ cfg, w.getConfig = .ok cfg →
      cfg.FeatureGates.Enabled .IAMIdentityMappingCRD = true →
      constructionFails w = false →
      (trace w).countP Event.isCtrlRun = 1 ∧
      (∀ ctrl n ch, Event.CtrlRun ctrl n ch ∈ trace w → n = 2 ∧ ch = w.SetupSignalHandler) ∧
      (∃ ctrl, Event.CtrlRun ctrl 2 w.SetupSignalHandler ∈ trace w) ∧
      (∃ f, Event.Start f w.SetupSignalHandler ∈ trace w) ∧
      (∀ f ch, Event.Start f ch ∈ trace w → ch = w.SetupSignalHandler) ∧
      (∃ srv, Event.GoHttpServerRun srv w.SetupSignalHandler ∈ trace w) ∧
      (∀ srv ch, Event.GoHttpServerRun srv ch ∈ trace w → ch = w.SetupSignalHandler) ∧
      (∀ srv ch, Event.HttpServerRun srv ch ∈ spawned w → ch = w.SetupSignalHandler) := by
  have hch := List.all_eq_true.mp (trace_onChan w)
  have hsp := List.all_eq_true.mp (spawned_onChan w)
  refine ⟨count_setupSignalHandler w, ?_, ?_⟩
  · intro ch h
    simpa [Event.onChan] using hch _ h
  · intro cfg hc hg hf
    obtain ⟨c, _, ht, _⟩ := full_success w cfg hc hg hf
    have hworkers : (trace w).all (Event.workersAre 2) = true := by
      rw [ht]
      rcases restConfigEvent_cases cfg with h | h <;>
        rcases ctrlTail_cases (w.CtrlRun (fullCtrl c) 2 w.SetupSignalHandler) with h2 | h2 <;>
        rw [h, h2] <;> rfl
    refine ⟨?_, ?_, ⟨fullCtrl c, ?_⟩, ⟨fullFactory c, ?_⟩, ?_,
      ⟨⟨cfg, (fullFactory c).IAMIdentityMappings⟩, ?_⟩, ?_, ?_⟩
    · rw [ht]
      rcases restConfigEvent_cases cfg with h | h <;>
        rcases ctrlTail_cases (w.CtrlRun (fullCtrl c) 2 w.SetupSignalHandler) with h2 | h2 <;>
        rw [h, h2] <;> rfl
    · intro ctrl n ch h
      have h1 := List.all_eq_true.mp hworkers _ h
      have h2 := hch _ h
      simp only [Event.workersAre, Event.onChan, beq_iff_eq] at h1 h2
      exact ⟨h1, h2⟩
    · rw [ht]
      simp [fullSteps]
    · rw [ht]
      simp [fullSteps]
    · intro f ch h
      simpa [Event.onChan] using hch _ h
    · rw [ht]
      simp [fullSteps]
    · intro srv ch h
      simpa [Event.onChan] using hch _ h
    · intro srv ch h
      simpa [Event.onChan] using hsp _ h

/-- Witness of C10: Scenario B, the happy path with in-cluster credentials. -/
theorem C10_witness :
    (happyWorld cfgInCluster).getConfig = .ok cfgInCluster ∧
    cfgInCluster.FeatureGates.Enabled .IAMIdentityMappingCRD = true ∧
    constructionFails (happyWorld cfgInCluster) = false ∧
    (trace (happyWorld cfgInCluster)).countP Event.isCtrlRun = 1 ∧
    (∃ ctrl, Event.CtrlRun ctrl 2 (happyWorld cfgInCluster).SetupSignalHandler ∈
      trace (happyWorld cfgInCluster)) :=
  have h := (C10_single_stop_channel (happyWorld cfgInCluster)).2.2 cfgInCluster rfl rfl rfl
  ⟨rfl, rfl, rfl, h.1, h.2.2.1⟩

/-- C4: in every run, in either mode, whenever `httpServer.Run` is launched or
invoked, or `ctrl.Run` is invoked, `iamInformerFactory.Start(stopCh)` has been
called and has returned earlier in the same run. -/
theorem C4_cache_start_happens_before (w : World) (g : List Event)
    (hg : isProcessTrace w g = true) :
    PrecededBy (Event.isStartOn w.SetupSignalHandler)
      (fun e => e.isGo || e.isHttpServerRun || e.isCtrlRun) g := by
  simp only [isProcessTrace, Bool.and_eq_true] at hg
  obtain ⟨⟨h1, _⟩, h3⟩ := hg
  have hpre : (g.filter fun e => !e.isTask) <+: trace w := List.isPrefixOf_iff_prefix.mp h1
  have hO : PrecededBy (Event.isStartOn w.SetupSignalHandler)
      (fun e => e.isGo || e.isCtrlRun) g := by
    refine PrecededBy.of_filter (fun e => !e.isTask) ?_
      (PrecededBy.of_initial hpre (trace_start_first w))
    intro e he
    cases e <;> first | rfl | simp [Event.isGo, Event.isCtrlRun] at he
  have hG : PrecededBy Event.isGo Event.isTask g := (precededBy_iff _ _ _).mp h3
  have hH : PrecededBy (Event.isStartOn w.SetupSignalHandler) Event.isHttpServerRun g := by
    refine PrecededBy.trans (q := Event.isGo) (hO.mono ?_) (hG.mono ?_)
    · intro e he
      simp [he]
    · intro e he
      cases e <;> first | rfl | simp [Event.isHttpServerRun] at he
  intro l1 e l2 hsplit hq
  simp only [Bool.or_eq_true] at hq
  rcases hq with (hq | hq) | hq
  · exact hO l1 e l2 hsplit (by simp [hq])
  · exact hH l1 e l2 hsplit hq
  · exact hO l1 e l2 hsplit (by simp [hq])

/-- Witness of C4: a process trace of the happy world in which the goroutine
invokes `httpServer.Run` and the orchestrator invokes `ctrl.Run`. -/
theorem C4_witness :
    isProcessTrace (happyWorld cfgInCluster) happyProcessTrace = true ∧
    happyProcessTrace.any Event.isHttpServerRun = true ∧
    happyProcessTrace.any Event.isCtrlRun = true ∧
    PrecededBy (Event.isStartOn (happyWorld cfgInCluster).SetupSignalHandler)
      (fun e => e.isGo || e.isHttpServerRun || e.isCtrlRun) happyProcessTrace :=
  ⟨rfl, rfl, rfl,
    C4_cache_start_happens_before (happyWorld cfgInCluster) happyProcessTrace rfl⟩

/-- C5, as stated, fails: in the happy FULL-mode run `controller.New` and
`server.New` are called before any `iamInformerFactory.Start`, so the cache
`Start` does not precede the two construction steps. -/
theorem C5_counterexample :
    (happyWorld cfgInCluster).getConfig = .ok cfgInCluster ∧
    cfgInCluster.FeatureGates.Enabled .IAMIdentityMappingCRD = true ∧
    constructionFails (happyWorld cfgInCluster) = false ∧
    ¬ PrecededBy Event.isStart (fun e => e.isControllerNew || e.isServerNew)
      (trace (happyWorld cfgInCluster)) := by
  refine ⟨rfl, rfl, rfl, ?_⟩
  rw [← precededBy_iff]
  decide

/-- C5, amended: in FULL mode with successful construction the orchestrator
builds the watch cache, then constructs the controller and the server, and
only then starts the cache, before it launches `httpServer.Run` and invokes
`ctrl.Run`; each of these steps occurs exactly once. -/
theorem C5_full_mode_order (w : World) (cfg : Config)
    (hc : w.getConfig = .ok cfg)
    (hg : cfg.FeatureGates.Enabled .IAMIdentityMappingCRD = true)
    (hf : constructionFails w = false) :
    PrecededBy Event.isNewSharedInformerFactory
      (fun e => e.isControllerNew || e.isServerNew) (trace w) ∧
    PrecededBy Event.isControllerNew Event.isStart (trace w) ∧
    PrecededBy Event.isServerNew Event.isStart (trace w) ∧
    PrecededBy Event.isStart (fun e => e.isGo || e.isCtrlRun) (trace w) ∧
    (trace w).countP Event.isNewSharedInformerFactory = 1 ∧
    (trace w).countP Event.isControllerNew = 1 ∧
    (trace w).countP Event.isServerNew = 1 ∧
    (trace w).countP Event.isStart = 1 ∧
    (trace w).countP Event.isGo = 1 ∧
    (trace w).countP Event.isCtrlRun = 1 := by
  obtain ⟨c, _, ht, _⟩ := full_success w cfg hc hg hf
  simp only [← precededBy_iff]
  rw [ht]
  rcases restConfigEvent_cases cfg with h | h <;>
    rcases ctrlTail_cases (w.CtrlRun (fullCtrl c) 2 w.SetupSignalHandler) with h2 | h2 <;>
    rw [h, h2] <;> exact ⟨rfl, rfl, rfl, rfl, rfl, rfl, rfl, rfl, rfl, rfl⟩

/-- Witness of the amended C5: Scenario B, the happy path. -/
theorem C5_witness :
    (happyWorld cfgInCluster).getConfig = .ok cfgInCluster ∧
    cfgInCluster.FeatureGates.Enabled .IAMIdentityMappingCRD = true ∧
    constructionFails (happyWorld cfgInCluster) = false ∧
    PrecededBy Event.isControllerNew Event.isStart (trace (happyWorld cfgInCluster)) ∧
    PrecededBy Event.isServerNew Event.isStart (trace (happyWorld cfgInCluster)) :=
  have h := C5_full_mode_order (happyWorld cfgInCluster) cfgInCluster rfl rfl rfl
  ⟨rfl, rfl, rfl, h.2.1, h.2.2.1⟩

/-- C8: in BYPASS mode the orchestrator starts the cache, launches
`httpServer.Run` as a goroutine and then receives from the stop channel as its
final step: it stays blocked if the channel is never closed, it returns with
status zero and no fatal log if the channel is closed, and what
`httpServer.Run` does changes neither. -/
theorem C8_bypass_blocks_on_signal (w : World) (cfg : Config)
    (hc : w.getConfig = .ok cfg)
    (hg : cfg.FeatureGates.Enabled .IAMIdentityMappingCRD = false) :
    (∃ steps f srv, trace w = steps ++
      [.Start f w.SetupSignalHandler, .ServerNew cfg f.IAMIdentityMappings,
        .GoHttpServerRun srv w.SetupSignalHandler, .RecvStop w.SetupSignalHandler]) ∧
    (w.closed w.SetupSignalHandler = false →
      outcome w = .blocked ∧ exitStatus (outcome w) = none) ∧
    (w.closed w.SetupSignalHandler = true →
      outcome w = .value () ∧ exitStatus (outcome w) = some 0) ∧
    (∀ e ∈ trace w, e.isFatal = false) ∧
    (∀ s : Server → Chan → Blocking (Option GoError),
      trace { w with HttpServerRun := s } = trace w ∧
      outcome { w with HttpServerRun := s } = outcome w) := by
  obtain ⟨ht, ho⟩ := bypass_normal_form w cfg hc hg
  refine ⟨⟨preamble w ++ (bypassSteps w cfg).take 3, _, _, by rw [ht]; rfl⟩, ?_, ?_, ?_,
    fun _ => ⟨rfl, rfl⟩⟩
  · intro h
    rw [ho, h]
    exact ⟨rfl, rfl⟩
  · intro h
    rw [ho, h]
    exact ⟨rfl, rfl⟩
  · have hall : (trace w).any Event.isFatal = false := by
      rw [ht]
      rfl
    exact fun e he => by simpa using List.any_eq_false.mp hall e he

/-- Witness of C8: Scenario A, with the termination request arriving. -/
theorem C8_witness :
    (happyWorld cfgBypass).getConfig = .ok cfgBypass ∧
    cfgBypass.FeatureGates.Enabled .IAMIdentityMappingCRD = false ∧
    (happyWorld cfgBypass).closed (happyWorld cfgBypass).SetupSignalHandler = true ∧
    outcome (happyWorld cfgBypass) = .value () ∧
    exitStatus (outcome (happyWorld cfgBypass)) = some 0 :=
  have h := (C8_bypass_blocks_on_signal (happyWorld cfgBypass) cfgBypass rfl rfl).2.2.1 rfl
  ⟨rfl, rfl, rfl, h.1, h.2⟩

end AwsIamAuthenticator
